import Mathlib

/-
Verification of the CD-ROM controller command handlers of the vaporstation
PlayStation emulator (src/cdrom/commands.rs), against the natural-language
specification of the repository.

The handlers in src/cdrom/commands.rs are translated directly from the Rust
source.  The supporting declarations they use (the CDDrive record, the
Packet record, the IntCause codes, the status-byte function and the
decimal-to-BCD codec) live in src/cdrom/mod.rs and src/cdrom/disc.rs, which
are not part of the provided sources; those are modelled from the spec, as
their doc comments state.
-/

namespace Vaporstation

/-- Modelled from the spec: MotorState is declared in cdrom/mod.rs, absent
from the sources.  Spec paragraph 3: motor_state is in the set Off, On. -/
inductive MotorState where
  | Off
  | On
  deriving DecidableEq, Repr

/-- Modelled from the spec: DriveState is declared in cdrom/mod.rs, absent
from the sources.  Spec paragraph 3: drive_state is one of Idle, Seek, Read,
the coarse activity mode. -/
inductive DriveState where
  | Idle
  | Seek
  | Read
  deriving DecidableEq, Repr

/-- Modelled from the spec: IntCause is declared in cdrom/mod.rs, absent from
the sources.  The handlers in commands.rs use the wire values INT1, INT2,
INT3, INT5; spec paragraph 6 fixes five distinct codes, with a fourth
reserved data-end code not exercised by the handlers. -/
inductive IntCause where
  | INT1
  | INT2
  | INT3
  | INT4
  | INT5
  deriving DecidableEq, Repr

/-- Modelled from the spec: paragraph 4.3 names the cause of every first
response packet Acknowledge, which the source realises as INT3. -/
def IntCause.Acknowledge : IntCause := IntCause.INT3

/-- Modelled from the spec: paragraph 4.3 names the cause of delayed
completion packets Complete, which the source realises as INT2. -/
def IntCause.Complete : IntCause := IntCause.INT2

/-- Modelled from the spec: paragraph 4.3 names the cause of the delayed
read packet DataReady, which the source realises as INT1. -/
def IntCause.DataReady : IntCause := IntCause.INT1

/-- Modelled from the spec: paragraph 4.3 names the cause of the no-disc
response Error, which the source realises as INT5. -/
def IntCause.Error : IntCause := IntCause.INT5

/-- Modelled from the spec: DiscIndex is declared in cdrom/disc.rs, absent
from the sources.  Spec paragraph 3: a disc position is a triple
(minute, second, frame). -/
structure DiscIndex where
  minutes : Nat
  seconds : Nat
  frames : Nat
  deriving DecidableEq, Repr

/-- Modelled from the spec: the DiscIndex constructor used by set_loc,
packing the three position components. -/
def DiscIndex.new (minutes seconds frames : Nat) : DiscIndex :=
  { minutes := minutes, seconds := seconds, frames := frames }

/-- Modelled from the spec: the Disc capability is declared in
cdrom/disc.rs, absent from the sources.  The command handlers consume only
the track count from it (spec paragraph 6), so it is modelled by that
single field. -/
structure Disc where
  track_count : Nat
  deriving DecidableEq, Repr

/-- Modelled from the spec: CDDrive is declared in cdrom/mod.rs, absent from
the sources.  The fields are the nine Drive State fields of spec paragraph 3,
all of which commands.rs reads or writes.  Byte-valued fields are Nat. -/
structure CDDrive where
  disc : Option Disc
  motor_state : MotorState
  drive_state : DriveState
  drive_mode : Nat
  seek_target : DiscIndex
  seek_complete : Bool
  read_offset : Nat
  read_enabled : Bool
  data_queue : List Nat
  deriving DecidableEq, Repr

/-- Modelled from the spec: CDDrive.get_stat is defined in cdrom/mod.rs,
absent from the sources.  Spec paragraph 4.1: the one-byte status summarizes
motor on/off, current activity (idle/seeking/reading) and error/shell-open
flags, read live from Drive State.  Following the hardware convention the
motor bit is bit 1, reading is bit 5 and seeking is bit 6; the handlers
under proof raise no error or shell flags. -/
def CDDrive.get_stat (state : CDDrive) : Nat :=
  (match state.motor_state with
    | MotorState.Off => 0
    | MotorState.On => 0x2) +
  (match state.drive_state with
    | DriveState.Idle => 0
    | DriveState.Seek => 0x40
    | DriveState.Read => 0x20)

/-- Translated from cdrom/mod.rs via its use in commands.rs: a response
packet holds an interrupt cause, the response bytes, a cycle delay, an
optional boxed successor packet and the originating command opcode. -/
inductive Packet where
  | mk (cause : IntCause) (response : List Nat) (execution_cycles : Nat)
      (extra_response : Option Packet) (command : Nat)

/-- Field accessor for Packet.cause. -/
def Packet.cause : Packet → IntCause
  | Packet.mk c _ _ _ _ => c

/-- Field accessor for Packet.response. -/
def Packet.response : Packet → List Nat
  | Packet.mk _ r _ _ _ => r

/-- Field accessor for Packet.execution_cycles. -/
def Packet.execution_cycles : Packet → Nat
  | Packet.mk _ _ e _ _ => e

/-- Field accessor for Packet.extra_response. -/
def Packet.extra_response : Packet → Option Packet
  | Packet.mk _ _ _ x _ => x

/-- Field accessor for Packet.command. -/
def Packet.command : Packet → Nat
  | Packet.mk _ _ _ _ c => c

/-- Functional update of the cause field, modelling the Rust field
assignments such as second_response.cause = IntCause::INT2. -/
def Packet.withCause : Packet → IntCause → Packet
  | Packet.mk _ r e x c, cause => Packet.mk cause r e x c

/-- Functional update of the execution_cycles field. -/
def Packet.withCycles : Packet → Nat → Packet
  | Packet.mk c r _ x cmd, e => Packet.mk c r e x cmd

/-- Functional update of the extra_response field, modelling
first_response.extra_response = Some(Box::new(second_response)). -/
def Packet.withExtra : Packet → Option Packet → Packet
  | Packet.mk c r e _ cmd, x => Packet.mk c r e x cmd

/-- Appending one byte to the response bytes, modelling
initial_response.response.push(b). -/
def Packet.pushByte : Packet → Nat → Packet
  | Packet.mk c r e x cmd, b => Packet.mk c (r ++ [b]) e x cmd

/-- Number of packets in the chain headed by this packet. -/
def Packet.chainLength : Packet → Nat
  | Packet.mk _ _ _ none _ => 1
  | Packet.mk _ _ _ (some p) _ => 1 + Packet.chainLength p

/-- Translated from src/cdrom/commands.rs line 4. -/
def AVG_FIRST_RESPONSE_TIME : Nat := 0xc4e1

/-- Translated from src/cdrom/commands.rs line 5. -/
def AVG_SECOND_RESPONSE_TIME : Nat := 0x1000

/-- Modelled from the spec: dec_to_bcd is defined in cdrom/disc.rs, absent
from the sources.  Spec paragraph 4.4: for 0 <= n <= 99 it returns a single
byte with the tens digit in the high nibble and the ones digit in the low
nibble. -/
def dec_to_bcd (n : Nat) : Nat :=
  (n / 10) * 16 + n % 10

/-- Translated from src/cdrom/commands.rs lines 17-27: the stat helper
builds a single INT3 packet carrying the live status byte at the default
first-response delay. -/
def stat (state : CDDrive) (command : Nat) : Packet :=
  Packet.mk IntCause.INT3 [state.get_stat] AVG_FIRST_RESPONSE_TIME none command

/-- Translated from src/cdrom/commands.rs lines 33-58 (get_id). -/
def get_id (state : CDDrive) : Packet :=
  if state.disc.isSome then
    let first_response := stat state 0x1a
    let second_response := Packet.mk IntCause.INT2
      [state.get_stat, 0x00, 0x20, 0x00, 0x53, 0x43, 0x45, 0x41]
      AVG_SECOND_RESPONSE_TIME none 0x1a
    first_response.withExtra (some second_response)
  else
    let first_response := stat state 0x1a
    let second_response := Packet.mk IntCause.INT5
      [0x08, 0x40, 0, 0, 0, 0, 0, 0]
      AVG_SECOND_RESPONSE_TIME none 0x1a
    first_response.withExtra (some second_response)

/-- Translated from src/cdrom/commands.rs lines 60-67 (init).  The mutation
of the drive is returned alongside the packet. -/
def init (state : CDDrive) : CDDrive × Packet :=
  let state := { state with motor_state := MotorState.On }
  let first_response := stat state 0x0a
  let second_response := stat state 0x0a
  let second_response := second_response.withCause IntCause.INT2
  (state, first_response.withExtra (some second_response))

/-- Translated from src/cdrom/commands.rs lines 69-76 (set_loc). -/
def set_loc (state : CDDrive) (minutes seconds frames : Nat) : CDDrive × Packet :=
  let state := { state with
    seek_target := DiscIndex.new minutes seconds frames,
    seek_complete := false,
    read_offset := 0,
    data_queue := ([] : List Nat) }
  (state, stat state 0x2)

/-- Translated from src/cdrom/commands.rs lines 79-90 (seek_data, SeekL). -/
def seek_data (state : CDDrive) : CDDrive × Packet :=
  let state := { state with drive_state := DriveState.Idle }
  let second_response := (stat state 0x15).withCycles AVG_FIRST_RESPONSE_TIME
  let state := { state with drive_state := DriveState.Seek }
  let first_response := stat state 0x15
  let second_response := second_response.withCause IntCause.INT2
  let second_response := second_response.withCycles 120000
  (state, first_response.withExtra (some second_response))

/-- Translated from src/cdrom/commands.rs lines 101-116 (read_with_retry,
ReadN). -/
def read_with_retry (state : CDDrive) : CDDrive × Packet :=
  let initial_response := stat state 0x6
  let state := { state with drive_state := DriveState.Read, read_enabled := true }
  let response_packet := Packet.mk IntCause.INT1 [state.get_stat] 0x36cd2 none 0x6
  let initial_response := initial_response.withCycles AVG_FIRST_RESPONSE_TIME
  (state, initial_response.withExtra (some response_packet))

/-- Modelled from the spec only in its failure channel: a Rust panic, as
raised by Option::expect, hard-aborts the emulator.  It is embedded as the
error side of an Except value carrying the panic message, kept distinct
from any recoverable error condition. -/
inductive EmuHalt where
  | panicked (msg : String)
  deriving DecidableEq, Repr

/-- Translated from src/cdrom/commands.rs lines 144-154 (get_tn).  The
expect call on a missing disc is a panic and is embedded as an EmuHalt
error; the cast of the BCD track number to u8 is the final mod 256. -/
def get_tn (state : CDDrive) : Except EmuHalt Packet :=
  match state.disc with
  | none => Except.error (EmuHalt.panicked "Tried to read non-existant disc!")
  | some disc =>
    let first_track := 0x1
    let last_track := dec_to_bcd (disc.track_count + 1)
    let initial_response := stat state 0x13
    Except.ok ((initial_response.pushByte first_track).pushByte (last_track % 256))

/-- Concrete four-track disc used to instantiate the theorems. -/
def sampleDisc : Disc := { track_count := 4 }

/-- Concrete drive with the sample disc mounted. -/
def discDrive : CDDrive :=
  { disc := some sampleDisc,
    motor_state := MotorState.Off,
    drive_state := DriveState.Idle,
    drive_mode := 0,
    seek_target := DiscIndex.new 0 2 0,
    seek_complete := false,
    read_offset := 0,
    read_enabled := false,
    data_queue := ([] : List Nat) }

/-- Concrete drive with no disc mounted. -/
def noDiscDrive : CDDrive := { discDrive with disc := none }

/-- C1: after seek_data returns, the persisted drive_state is Seek; the
returned chain has exactly two packets, the head carrying the status byte
captured while drive_state = Seek with cause Acknowledge at the default
first-response delay, and the successor carrying the earlier status byte
captured while drive_state = Idle with cause Complete at the fixed long seek
delay of 120000 cycles. -/
theorem seek_data_two_packet_chain (s : CDDrive) :
    (seek_data s).1.drive_state = DriveState.Seek ∧
    ((seek_data s).2).chainLength = 2 ∧
    ((seek_data s).2).cause = IntCause.Acknowledge ∧
    ((seek_data s).2).response =
      [CDDrive.get_stat { s with drive_state := DriveState.Seek }] ∧
    ((seek_data s).2).execution_cycles = AVG_FIRST_RESPONSE_TIME ∧
    ((seek_data s).2).extra_response = some (Packet.mk IntCause.Complete
      [CDDrive.get_stat { s with drive_state := DriveState.Idle }]
      120000 none 0x15) :=
  ⟨rfl, rfl, rfl, rfl, rfl, rfl⟩

/-- C9: seek_data assigns drive_state = Idle before its first status
snapshot, unconditionally.  The whole result of seek_data is invariant under
the prior drive_state (so the pre-command activity state is discarded and
appears in neither packet), the successor snapshot reflecting Idle and the
head snapshot reflecting Seek for every prior value, Read included. -/
theorem seek_data_ignores_prior_drive_state (s : CDDrive) (d : DriveState) :
    seek_data { s with drive_state := d } = seek_data s ∧
    ((seek_data s).2).response =
      [CDDrive.get_stat { s with drive_state := DriveState.Seek }] ∧
    (((seek_data s).2).extra_response.map Packet.response) =
      some [CDDrive.get_stat { s with drive_state := DriveState.Idle }] :=
  ⟨rfl, rfl, rfl⟩

/-- C3: after init, the persisted motor_state is On; the returned chain has
exactly two packets, both carrying the identical one-byte post-transition
status (computed from the state with motor On), the first with cause
Acknowledge and the second with cause Complete at the default delay. -/
theorem init_two_packet_chain (s : CDDrive) :
    (init s).1.motor_state = MotorState.On ∧
    ((init s).2).chainLength = 2 ∧
    ((init s).2).cause = IntCause.Acknowledge ∧
    ((init s).2).response =
      [CDDrive.get_stat { s with motor_state := MotorState.On }] ∧
    ((init s).2).execution_cycles = AVG_FIRST_RESPONSE_TIME ∧
    ((init s).2).extra_response = some (Packet.mk IntCause.Complete
      [CDDrive.get_stat { s with motor_state := MotorState.On }]
      AVG_FIRST_RESPONSE_TIME none 0x0a) :=
  ⟨rfl, rfl, rfl, rfl, rfl, rfl⟩

/-- C4: for every prior drive state, set_loc sets seek_target to the given
minute, second, frame position, sets seek_complete to false, read_offset to
0 and empties data_queue, leaves every other Drive State field unchanged,
and returns a single Acknowledge packet with one status byte. -/
theorem set_loc_resets_read_state (s : CDDrive) (minutes seconds frames : Nat) :
    (set_loc s minutes seconds frames).1.seek_target =
      DiscIndex.new minutes seconds frames ∧
    (set_loc s minutes seconds frames).1.seek_complete = false ∧
    (set_loc s minutes seconds frames).1.read_offset = 0 ∧
    (set_loc s minutes seconds frames).1.data_queue = [] ∧
    (set_loc s minutes seconds frames).1.disc = s.disc ∧
    (set_loc s minutes seconds frames).1.motor_state = s.motor_state ∧
    (set_loc s minutes seconds frames).1.drive_state = s.drive_state ∧
    (set_loc s minutes seconds frames).1.drive_mode = s.drive_mode ∧
    (set_loc s minutes seconds frames).1.read_enabled = s.read_enabled ∧
    ((set_loc s minutes seconds frames).2).cause = IntCause.Acknowledge ∧
    ((set_loc s minutes seconds frames).2).response =
      [CDDrive.get_stat (set_loc s minutes seconds frames).1] ∧
    ((set_loc s minutes seconds frames).2).chainLength = 1 :=
  ⟨rfl, rfl, rfl, rfl, rfl, rfl, rfl, rfl, rfl, rfl, rfl, rfl⟩

/-- C6: after read_with_retry returns, the persisted drive_state is Read and
read_enabled is true; the returned chain has exactly two packets, the head
with cause Acknowledge, one status byte and the default first-response
delay, the successor with cause DataReady, one status byte and the fixed
long data-latency delay of 0x36cd2 cycles. -/
theorem read_with_retry_two_packet_chain (s : CDDrive) :
    (read_with_retry s).1.drive_state = DriveState.Read ∧
    (read_with_retry s).1.read_enabled = true ∧
    ((read_with_retry s).2).chainLength = 2 ∧
    ((read_with_retry s).2).cause = IntCause.Acknowledge ∧
    ((read_with_retry s).2).response.length = 1 ∧
    ((read_with_retry s).2).execution_cycles = AVG_FIRST_RESPONSE_TIME ∧
    ((read_with_retry s).2).extra_response = some (Packet.mk IntCause.DataReady
      [CDDrive.get_stat
        { s with drive_state := DriveState.Read, read_enabled := true }]
      0x36cd2 none 0x6) :=
  ⟨rfl, rfl, rfl, rfl, rfl, rfl, rfl⟩

/-- C10: the status byte in the head (Acknowledge) packet of read_with_retry
is computed from the pre-command state, before drive_state is set to Read
and read_enabled to true, for every prior Drive State; only the successor
(DataReady) packet carries the status of the Read state. -/
theorem read_with_retry_status_snapshots (s : CDDrive) :
    ((read_with_retry s).2).response = [CDDrive.get_stat s] ∧
    (((read_with_retry s).2).extra_response.map Packet.response) =
      some [CDDrive.get_stat
        { s with drive_state := DriveState.Read, read_enabled := true }] :=
  ⟨rfl, rfl⟩

/-- C2: get_id always returns a two-packet chain whose head is an
Acknowledge packet with one status byte; with no disc mounted the successor
has cause Error, payload [0x08, 0x40, 0, 0, 0, 0, 0, 0], and with a disc
mounted the successor has cause Complete, payload the status byte followed
by 0x00, 0x20, 0x00, 0x53, 0x43, 0x45, 0x41; in both cases the successor
uses the second-response delay. -/
theorem get_id_two_packet_chain (s : CDDrive) :
    ((get_id s).cause = IntCause.Acknowledge ∧
     (get_id s).response = [CDDrive.get_stat s] ∧
     (get_id s).chainLength = 2) ∧
    (s.disc = none →
      (get_id s).extra_response = some (Packet.mk IntCause.Error
        [0x08, 0x40, 0, 0, 0, 0, 0, 0] AVG_SECOND_RESPONSE_TIME none 0x1a)) ∧
    (s.disc.isSome = true →
      (get_id s).extra_response = some (Packet.mk IntCause.Complete
        [CDDrive.get_stat s, 0x00, 0x20, 0x00, 0x53, 0x43, 0x45, 0x41]
        AVG_SECOND_RESPONSE_TIME none 0x1a)) := by
  rcases hd : s.disc with _ | d
  · refine ⟨⟨?_, ?_, ?_⟩, fun _ => ?_, fun hs => ?_⟩
    · simp [get_id, hd, stat, Packet.withExtra, Packet.cause, IntCause.Acknowledge]
    · simp [get_id, hd, stat, Packet.withExtra, Packet.response]
    · simp [get_id, hd, stat, Packet.withExtra, Packet.chainLength]
    · simp [get_id, hd, stat, Packet.withExtra, Packet.extra_response, IntCause.Error]
    · exact absurd hs (by simp)
  · refine ⟨⟨?_, ?_, ?_⟩, fun hn => ?_, fun _ => ?_⟩
    · simp [get_id, hd, stat, Packet.withExtra, Packet.cause, IntCause.Acknowledge]
    · simp [get_id, hd, stat, Packet.withExtra, Packet.response]
    · simp [get_id, hd, stat, Packet.withExtra, Packet.chainLength]
    · exact absurd hn (by simp)
    · simp [get_id, hd, stat, Packet.withExtra, Packet.extra_response, IntCause.Complete]

/-- Witness for C2: both branches of get_id evaluated on concrete drives. -/
theorem get_id_two_packet_chain_witness :
    (get_id noDiscDrive).extra_response = some (Packet.mk IntCause.Error
      [0x08, 0x40, 0, 0, 0, 0, 0, 0] AVG_SECOND_RESPONSE_TIME none 0x1a) ∧
    (get_id discDrive).extra_response = some (Packet.mk IntCause.Complete
      [CDDrive.get_stat discDrive, 0x00, 0x20, 0x00, 0x53, 0x43, 0x45, 0x41]
      AVG_SECOND_RESPONSE_TIME none 0x1a) :=
  ⟨(get_id_two_packet_chain noDiscDrive).2.1 rfl,
   (get_id_two_packet_chain discDrive).2.2 rfl⟩

/-- C7: for every n with 0 <= n <= 99, dec_to_bcd n is a single byte whose
high nibble is n / 10 and whose low nibble is n % 10. -/
theorem dec_to_bcd_nibbles (n : Nat) (h : n ≤ 99) :
    dec_to_bcd n < 256 ∧ dec_to_bcd n / 16 = n / 10 ∧ dec_to_bcd n % 16 = n % 10 := by
  unfold dec_to_bcd
  omega

/-- Witness for C7 at n = 37. -/
theorem dec_to_bcd_nibbles_witness :
    37 ≤ 99 ∧ (dec_to_bcd 37 < 256 ∧ dec_to_bcd 37 / 16 = 37 / 10 ∧
      dec_to_bcd 37 % 16 = 37 % 10) :=
  ⟨by decide, dec_to_bcd_nibbles 37 (by decide)⟩

/-- C8: for every mounted disc, get_tn returns a single Acknowledge packet
whose payload is the status byte, the fixed first-track number 0x01 and the
last-track number dec_to_bcd (track count + 1) truncated to a byte, which
for track counts up to 98 is exactly the BCD encoding, and for a four-track
disc is 0x05. -/
theorem get_tn_disc_payload (s : CDDrive) (d : Disc) (h : s.disc = some d) :
    get_tn s = Except.ok (Packet.mk IntCause.Acknowledge
      [CDDrive.get_stat s, 0x01, dec_to_bcd (d.track_count + 1) % 256]
      AVG_FIRST_RESPONSE_TIME none 0x13) ∧
    (d.track_count + 1 ≤ 99 →
      dec_to_bcd (d.track_count + 1) % 256 = dec_to_bcd (d.track_count + 1)) ∧
    (d.track_count = 4 → dec_to_bcd (d.track_count + 1) % 256 = 0x05) := by
  refine ⟨?_, fun h99 => ?_, fun h4 => ?_⟩
  · simp [get_tn, h, stat, Packet.pushByte, IntCause.Acknowledge]
  · unfold dec_to_bcd
    omega
  · rw [h4]
    decide

/-- Witness for C8 on the concrete four-track disc: the payload bytes after
the status byte are 0x01 and 0x05. -/
theorem get_tn_disc_payload_witness :
    discDrive.disc = some sampleDisc ∧
    get_tn discDrive = Except.ok (Packet.mk IntCause.Acknowledge
      [CDDrive.get_stat discDrive, 0x01, 0x05]
      AVG_FIRST_RESPONSE_TIME none 0x13) :=
  ⟨rfl, by
    have h := (get_tn_disc_payload discDrive sampleDisc rfl).1
    simpa [sampleDisc, dec_to_bcd] using h⟩

/-- C5 counterexample: issuing get_tn with no disc mounted does not surface
a recoverable NoDiscMounted condition; the expect call panics, which
hard-aborts the emulator.  In this embedding a Rust panic is the EmuHalt
error value carrying the panic message, and the result below is that value,
not a response packet and not any NoDiscMounted error. -/
theorem get_tn_no_disc_counterexample :
    get_tn noDiscDrive =
      Except.error (EmuHalt.panicked "Tried to read non-existant disc!") := rfl

/-- C5 amended: when get_tn is issued while no disc is mounted, the handler
panics via expect with the message below, hard-aborting the emulator; no
packet is returned and no NoDiscMounted condition is surfaced. -/
theorem get_tn_no_disc_panics (s : CDDrive) (h : s.disc = none) :
    get_tn s =
      Except.error (EmuHalt.panicked "Tried to read non-existant disc!") := by
  simp [get_tn, h]

/-- Witness for the amended C5 at the concrete no-disc drive. -/
theorem get_tn_no_disc_panics_witness :
    noDiscDrive.disc = none ∧
    get_tn noDiscDrive =
      Except.error (EmuHalt.panicked "Tried to read non-existant disc!") :=
  ⟨rfl, get_tn_no_disc_panics noDiscDrive rfl⟩

end Vaporstation
